import Mathlib

/-!
Shallow embedding of the multi-domain ad-search orchestration layer of the
competitive-keyword-analysis web application.

Sources embedded here:
* `apps/web/src/types/ads.ts` — the data model (`AdItem`, `Cluster`,
  `ClusteringData`, `AdsSearchResponse`, …).  TypeScript `number` fields that
  are counts, sizes or ids are modelled as `Nat`; nullable fields become
  `Option`.
* `apps/web/src/services/api.ts` — `searchAds` (multi-domain fan-out with
  per-domain failure absorption) and `combineClusteringData` (client-side
  cluster merge).  The per-domain provider call `searchSingleDomain` is a
  network effect; it is modelled as a parameter `fetchDomain : String →
  Option AdsSearchResponse` where `none` is a call whose rejection was caught
  (`.catch(() => null)` on line 107-111).  `depth`, `locationCode` and
  `language` are passed through unchanged to every per-domain call, so they
  are folded into `fetchDomain`.  `Promise.all` resolves to the results in
  submission order, which the sequential `List.map` embedding reproduces.
* `apps/web/src/hooks/useAdsSearch.ts` — the `search` function of the hook
  (state after the call settles).
* `apps/web/src/components/AdResults/AdResults.tsx` (DomainTagInput) —
  `normalizeDomain`, embedded over `List Char`.
-/

namespace KeywordApp

/-- Model of `PreviewImage` from types/ads.ts. -/
structure PreviewImage where
  url : Option String
  width : Option Int
  height : Option Int
deriving DecidableEq

/-- Model of `AdTextContent` from types/ads.ts. -/
structure AdTextContent where
  headline : Option String
  description : Option String
  sitelinks : List String
  raw_text : Option String
  keyphrases : List String
  detected_language : Option String
  error : Option String
deriving DecidableEq

/-- Model of `AdItem` from types/ads.ts. -/
structure AdItem where
  type : String
  rank_group : Option Int
  rank_absolute : Option Int
  advertiser_id : Option String
  creative_id : Option String
  title : Option String
  url : Option String
  verified : Option Bool
  format : Option String
  preview_image : Option PreviewImage
  first_shown : Option String
  last_shown : Option String
  text_content : Option AdTextContent
deriving DecidableEq

/-- Model of `PhraseInfo` from types/ads.ts. -/
structure PhraseInfo where
  phrase : String
  ad_title : Option String
  ad_url : Option String
  creative_id : Option String
deriving DecidableEq

/-- Model of `Cluster` from types/ads.ts: a cluster of related keyphrases. -/
structure Cluster where
  id : Nat
  name : String
  size : Nat
  phrases : List PhraseInfo
deriving DecidableEq

/-- Model of `ClusteringData` from types/ads.ts. -/
structure ClusteringData where
  clusters : List Cluster
  unclustered : List PhraseInfo
  total_phrases : Nat
  error : Option String
deriving DecidableEq

/-- Model of `AdsSearchResponse` from types/ads.ts: the per-domain provider result. -/
structure AdsSearchResponse where
  domain : String
  ads_count : Nat
  ads : List AdItem
  clustering : Option ClusteringData
deriving DecidableEq

/-- Model of `CombinedAdsSearchResponse`: the shape built by `searchAds` in
services/api.ts lines 96-101 and 130-135. -/
structure CombinedAdsSearchResponse where
  domains : List String
  ads_count : Nat
  ads : List AdItem
  clustering : Option ClusteringData
deriving DecidableEq

/-- Model of `ApiError` from services/api.ts. -/
structure ApiError where
  message : String
  statusCode : Option Nat
deriving DecidableEq

/-- The initial accumulator `allClusters` of `combineClusteringData`
(services/api.ts lines 147-152). -/
def emptyClusteringData : ClusteringData :=
  { clusters := [], unclustered := [], total_phrases := 0, error := none }

/-- One iteration of the `for (const result of results)` loop of
`combineClusteringData` (services/api.ts lines 156-171).  The state is the
accumulator `allClusters` paired with `clusterIdOffset`.  A result with
`clustering` null is skipped (`continue`, line 157); otherwise its clusters
are appended with ids shifted by the running offset, the offset grows by the
number of its clusters, and `unclustered` / `total_phrases` accumulate. -/
def mergeStep (acc : ClusteringData × Nat) (result : AdsSearchResponse) :
    ClusteringData × Nat :=
  match result.clustering with
  | none => acc
  | some cd =>
      ({ clusters := acc.1.clusters ++ cd.clusters.map (fun c => { c with id := c.id + acc.2 }),
         unclustered := acc.1.unclustered ++ cd.unclustered,
         total_phrases := acc.1.total_phrases + cd.total_phrases,
         error := acc.1.error },
       acc.2 + cd.clusters.length)

/-- The state of `allClusters` and `clusterIdOffset` after the whole loop of
`combineClusteringData`, before the sort on line 174. -/
def mergedBeforeSort (results : List AdsSearchResponse) : ClusteringData × Nat :=
  results.foldl mergeStep (emptyClusteringData, 0)

/-- Stable insertion of a cluster into a list sorted by `size` descending:
the inserted cluster goes before the first element whose size does not exceed
its own, hence after every earlier element of equal size. -/
def insertBySize (x : Cluster) : List Cluster → List Cluster
  | [] => [x]
  | y :: ys => if y.size ≤ x.size then x :: y :: ys else y :: insertBySize x ys

/-- Model of `allClusters.clusters.sort((a, b) => b.size - a.size)` (services/api.ts
line 174).  `Array.prototype.sort` is stable (ES2019), and a stable sort by a
total preorder is extensionally unique, so the stable insertion sort below is
the same function as the engine's sort under the comparator
`(a, b) => b.size - a.size`. -/
def sortBySizeDesc : List Cluster → List Cluster
  | [] => []
  | x :: xs => insertBySize x (sortBySizeDesc xs)

/-- Model of `allClusters.clusters.forEach((cluster, idx) => { cluster.id = idx })`
(services/api.ts lines 177-179): overwrite ids with consecutive indices
starting from `i`. -/
def reassignIds : Nat → List Cluster → List Cluster
  | _, [] => []
  | i, c :: cs => { c with id := i } :: reassignIds (i + 1) cs

/-- Model of `combineClusteringData` (services/api.ts lines 144-182): run the merge
loop, sort the combined clusters by size descending, then re-assign
sequential ids.  The function always returns an object (never null), even
when no result carries clustering data. -/
def combineClusteringData (results : List AdsSearchResponse) : ClusteringData :=
  let all := (mergedBeforeSort results).1
  { all with clusters := reassignIds 0 (sortBySizeDesc all.clusters) }

/-- The combined response built from the successful per-domain results
(services/api.ts lines 123-135): ads are the concatenation of the per-domain
ad lists, `ads_count` is its length, `domains` echoes each successful
response's `domain` field, and `clustering` is the (always present) merged
clustering object. -/
def mkCombined (successfulResults : List AdsSearchResponse) : CombinedAdsSearchResponse :=
  let allAds := (successfulResults.map (fun r => r.ads)).flatten
  { domains := successfulResults.map (fun r => r.domain),
    ads_count := allAds.length,
    ads := allAds,
    clustering := some (combineClusteringData successfulResults) }

/-- Model of `searchAds` (services/api.ts lines 92-136).  `fetchDomain d` is the
settled outcome of `searchSingleDomain({domain := d, ...}).catch(() => null)`
for domain `d`; `Promise.all` yields the outcomes in submission order.  An
empty domain list returns an empty combined response; if every call failed,
an `ApiError` is thrown; otherwise the combined response is built from the
successful results only. -/
def searchAds (fetchDomain : String → Option AdsSearchResponse)
    (domains : List String) : Except ApiError CombinedAdsSearchResponse :=
  if domains.length = 0 then
    .ok { domains := [], ads_count := 0, ads := [], clustering := none }
  else
    let results := domains.map fetchDomain
    let successfulResults := results.filterMap id
    if successfulResults.length = 0 then
      .error { message := "All domain searches failed", statusCode := none }
    else
      .ok (mkCombined successfulResults)

/-- The list of domains for which `searchAds` issues a provider call
(`searchSingleDomain`): none on the empty-input early return (line 95-102),
one per submitted domain otherwise (line 105, `domains.map`). -/
def searchAdsProviderCalls (domains : List String) : List String :=
  if domains.length = 0 then [] else domains

/-- The observable state of `useAdsSearch` after `search` settles:
`results`, `isLoading`, `error`. -/
structure HookState where
  results : Option CombinedAdsSearchResponse
  isLoading : Bool
  error : Option String
deriving DecidableEq

/-- The `search` function of `useAdsSearch` (hooks/useAdsSearch.ts lines
22-40), as the state it leaves behind: an empty domain list sets the
validation message and returns before calling `searchAds`; otherwise the
resolved value is stored in `results`, or the thrown error's message in
`error`; `isLoading` is reset in `finally`. -/
def hookSearch (fetchDomain : String → Option AdsSearchResponse)
    (domains : List String) : HookState :=
  if domains.length = 0 then
    { results := none, isLoading := false, error := some "Please enter at least one domain" }
  else
    match searchAds fetchDomain domains with
    | .ok data => { results := some data, isLoading := false, error := none }
    | .error e => { results := none, isLoading := false, error := some e.message }

/-- Domains for which the hook's `search` causes a provider call: none when
the list is empty (it returns before touching the network), otherwise those
of `searchAds`. -/
def hookSearchProviderCalls (domains : List String) : List String :=
  if domains.length = 0 then [] else searchAdsProviderCalls domains

/-! ### Domain normalization (DomainTagInput's `normalizeDomain`)

`normalizeDomain` in the tag-input component:
```
let domain = value.trim().toLowerCase()
domain = domain.replace(/^https?:\/\//, '')
domain = domain.replace(/\/$/, '')
domain = domain.replace(/^www\./, '')
```
Strings are embedded as `List Char`.  `trim` drops JavaScript whitespace from
both ends (modelled over the common ASCII whitespace characters), `toLowerCase`
is modelled on the basic-latin range via `Char.toLower`, and each `replace`
with an anchored regex removes at most one prefix/suffix occurrence. -/

/-- ASCII subset of the whitespace class removed by `String.prototype.trim`. -/
def isJsSpace (c : Char) : Bool :=
  c == ' ' || c == '\t' || c == '\n' || c == '\r' || c == '\x0b' || c == '\x0c'

/-- Model of `value.trim()`: drop whitespace from both ends. -/
def trimChars (s : List Char) : List Char :=
  ((s.dropWhile isJsSpace).reverse.dropWhile isJsSpace).reverse

/-- Model of `value.toLowerCase()` on the basic-latin range. -/
def lowerChars (s : List Char) : List Char :=
  s.map Char.toLower

/-- Model of `domain.replace(/^https?:\/\//, '')`: strip one leading scheme. -/
def stripScheme (s : List Char) : List Char :=
  if (String.toList "http://").isPrefixOf s then s.drop 7
  else if (String.toList "https://").isPrefixOf s then s.drop 8
  else s

/-- Model of `domain.replace(/\/$/, '')`: strip one trailing slash. -/
def stripTrailingSlash (s : List Char) : List Char :=
  if s.getLast? = some '/' then s.dropLast else s

/-- Model of `domain.replace(/^www\./, '')`: strip one leading `www.`. -/
def stripWww (s : List Char) : List Char :=
  if (String.toList "www.").isPrefixOf s then s.drop 4 else s

/-- Model of `normalizeDomain` from the DomainTagInput component: trim and lowercase,
then strip scheme, trailing slash and `www.` in that order. -/
def normalizeDomain (s : List Char) : List Char :=
  stripWww (stripTrailingSlash (stripScheme (lowerChars (trimChars s))))

/-! ### Concrete fixtures used by witnesses and counterexamples -/

/-- A concrete ad item (all optional fields empty except an id). -/
def sampleAd : AdItem :=
  { type := "text", rank_group := none, rank_absolute := none,
    advertiser_id := none, creative_id := some "cr-1", title := some "Ad",
    url := none, verified := none, format := none, preview_image := none,
    first_shown := none, last_shown := none, text_content := none }

/-- A concrete cluster with a given id, size and name (phrase list empty). -/
def sampleCluster (i sz : Nat) (nm : String) : Cluster :=
  { id := i, name := nm, size := sz, phrases := [] }

/-- A concrete successful per-domain response for `a.com` with two ads and
two clusters. -/
def wResponse : AdsSearchResponse :=
  { domain := "a.com", ads_count := 2, ads := [sampleAd, sampleAd],
    clustering := some { clusters := [sampleCluster 0 5 "c0", sampleCluster 1 9 "c1"],
                         unclustered := [], total_phrases := 3, error := none } }

/-- A concrete provider in which `a.com` succeeds and every other domain
(here `fail.com`) fails. -/
def wFetch : String → Option AdsSearchResponse :=
  fun d => if d = "a.com" then some wResponse else none

/-- The combined response a successful `a.com`-only search produces. -/
def wCombined : CombinedAdsSearchResponse := mkCombined [wResponse]

/-- A provider that echoes the requested domain and fails on `fail.com`. -/
def echoFetch : String → Option AdsSearchResponse :=
  fun d =>
    if d = "fail.com" then none
    else some { domain := d, ads_count := 0, ads := [], clustering := none }

/-- The combined result of the three-domain witness search. -/
def echoCombined : CombinedAdsSearchResponse :=
  mkCombined ((["b.com", "fail.com", "a.com"].map echoFetch).filterMap id)

/-- A two-cluster response for the C3 witness (cluster counts `[2, 3]`). -/
def wRespTwo : AdsSearchResponse :=
  { domain := "a.com", ads_count := 0, ads := [],
    clustering := some { clusters := [sampleCluster 0 5 "a0", sampleCluster 1 9 "a1"],
                         unclustered := [], total_phrases := 2, error := none } }

/-- A three-cluster response for the C3 witness (cluster counts `[2, 3]`). -/
def wRespThree : AdsSearchResponse :=
  { domain := "b.com", ads_count := 0, ads := [],
    clustering := some { clusters := [sampleCluster 0 2 "b0", sampleCluster 1 7 "b1",
                                      sampleCluster 2 9 "b2"],
                         unclustered := [], total_phrases := 3, error := none } }

/-- Forget a cluster's id: used to compare cluster content across the final
id re-assignment. -/
def eraseId (c : Cluster) : Cluster := { c with id := 0 }


/-- A successful response that carries no clustering data. -/
def respNoClustering : AdsSearchResponse :=
  { domain := "a.com", ads_count := 0, ads := [], clustering := none }

/-- A provider for which every domain succeeds but without clustering. -/
def fetchNoClustering : String → Option AdsSearchResponse :=
  fun _ => some respNoClustering

/-! ### Helper lemmas about the merge loop and the fan-out -/

/-- Total number of clusters contributed by a list of per-domain results: a
result without clustering contributes zero. -/
def clusterCount (results : List AdsSearchResponse) : Nat :=
  (results.map (fun r =>
    match r.clustering with
    | some cd => cd.clusters.length
    | none => 0)).sum

lemma filterMap_id_map {α β : Type} (f : α → Option β) (l : List α) :
    (l.map f).filterMap id = l.filterMap f := by
  rw [List.filterMap_map]
  rfl

lemma filterMap_filter_isSome {α β : Type} (f : α → Option β) (l : List α) :
    (l.filter (fun a => (f a).isSome)).filterMap f = l.filterMap f := by
  induction l with
  | nil => rfl
  | cons a l ih =>
      cases h : f a <;>
        simp [List.filter_cons, List.filterMap_cons, h, ih]

lemma foldl_mergeStep_error (results : List AdsSearchResponse) :
    ∀ acc : ClusteringData × Nat,
      (results.foldl mergeStep acc).1.error = acc.1.error := by
  induction results with
  | nil => intro acc; rfl
  | cons r rs ih =>
      intro acc
      rw [List.foldl_cons, ih]
      unfold mergeStep
      cases r.clustering <;> rfl

lemma foldl_mergeStep_clusters_length (results : List AdsSearchResponse) :
    ∀ acc : ClusteringData × Nat,
      (results.foldl mergeStep acc).1.clusters.length
        = acc.1.clusters.length + clusterCount results := by
  induction results with
  | nil => intro acc; simp [clusterCount]
  | cons r rs ih =>
      intro acc
      rw [List.foldl_cons, ih]
      unfold mergeStep
      cases h : r.clustering with
      | none => simp [clusterCount, h]
      | some cd => simp [clusterCount, h]; omega

lemma length_insertBySize (x : Cluster) (l : List Cluster) :
    (insertBySize x l).length = l.length + 1 := by
  induction l with
  | nil => rfl
  | cons y ys ih =>
      unfold insertBySize
      by_cases h : y.size ≤ x.size <;> simp [h, ih]

lemma length_sortBySizeDesc (l : List Cluster) :
    (sortBySizeDesc l).length = l.length := by
  induction l with
  | nil => rfl
  | cons x xs ih => simp [sortBySizeDesc, length_insertBySize, ih]

lemma map_id_reassignIds (l : List Cluster) :
    ∀ n : Nat, (reassignIds n l).map (fun c => c.id) = List.range' n l.length := by
  induction l with
  | nil => intro n; rfl
  | cons c cs ih =>
      intro n
      show n :: (reassignIds (n + 1) cs).map (fun c => c.id) = List.range' n (cs.length + 1)
      rw [ih (n + 1), List.range'_succ]

/-! ### Claim theorems: total failure, empty input, counts, merged error -/

/-- C2: if the domain list is non-empty and every per-domain provider call
fails, `searchAds` fails with the single aggregate "All domain searches
failed" error, not a list of per-domain errors. -/
theorem searchAds_total_failure (fetchDomain : String → Option AdsSearchResponse)
    (domains : List String) (hne : domains ≠ [])
    (hall : ∀ d ∈ domains, fetchDomain d = none) :
    searchAds fetchDomain domains =
      Except.error { message := "All domain searches failed", statusCode := none } := by
  have hlen : ¬ domains.length = 0 := by
    simpa [List.length_eq_zero] using hne
  have hfm : (domains.map fetchDomain).filterMap id = [] := by
    rw [filterMap_id_map]
    exact List.filterMap_eq_nil_iff.mpr hall
  unfold searchAds
  rw [if_neg hlen]
  simp only [hfm]
  rfl

/-- Witness for C2: both calls for `["x.com", "y.com"]` fail, and the search
fails with the aggregate error. -/
theorem searchAds_total_failure_witness :
    (["x.com", "y.com"] ≠ ([] : List String)
      ∧ ∀ d ∈ ["x.com", "y.com"], (fun (_ : String) => (none : Option AdsSearchResponse)) d = none)
    ∧ searchAds (fun _ => none) ["x.com", "y.com"] =
        Except.error { message := "All domain searches failed", statusCode := none } :=
  ⟨⟨by decide, by intro d _; rfl⟩,
    searchAds_total_failure (fun _ => none) ["x.com", "y.com"] (by decide) (by intro d _; rfl)⟩

/-- C6: searching with an empty domain list surfaces the validation error
"Please enter at least one domain" with no results, and issues zero provider
calls. -/
theorem hookSearch_empty_domains (fetchDomain : String → Option AdsSearchResponse) :
    hookSearch fetchDomain [] =
      { results := none, isLoading := false,
        error := some "Please enter at least one domain" }
    ∧ hookSearchProviderCalls [] = [] :=
  ⟨rfl, rfl⟩

/-- C10: the merged `ClusteringData` always has `error = none`: per-domain
clustering error strings are never copied into the combined result. -/
theorem combineClusteringData_error_none (results : List AdsSearchResponse) :
    (combineClusteringData results).error = none := by
  show (mergedBeforeSort results).1.error = none
  unfold mergedBeforeSort
  rw [foldl_mergeStep_error]
  rfl

/-- C9: whenever `searchAds` succeeds, `ads_count` equals the sum of the
lengths of the successful per-domain ad lists, and equals the length of the
combined `ads` list (no deduplication). -/
theorem searchAds_ads_count (fetchDomain : String → Option AdsSearchResponse)
    (domains : List String) (r : CombinedAdsSearchResponse)
    (hok : searchAds fetchDomain domains = Except.ok r) :
    r.ads_count = ((domains.filterMap fetchDomain).map (fun resp => resp.ads.length)).sum
    ∧ r.ads_count = r.ads.length := by
  unfold searchAds at hok
  by_cases h0 : domains.length = 0
  · rw [if_pos h0] at hok
    have hd : domains = [] := List.length_eq_zero.mp h0
    cases hok
    subst hd
    exact ⟨rfl, rfl⟩
  · rw [if_neg h0] at hok
    simp only [filterMap_id_map] at hok
    by_cases h1 : (domains.filterMap fetchDomain).length = 0
    · rw [if_pos h1] at hok
      cases hok
    · rw [if_neg h1] at hok
      cases hok
      constructor
      · show ((domains.filterMap fetchDomain).map (fun resp => resp.ads)).flatten.length = _
        rw [List.length_flatten, List.map_map]
        rfl
      · rfl

/-- Witness for C9: a concrete successful two-domain search where the count
invariants hold. -/
theorem searchAds_ads_count_witness :
    searchAds wFetch ["a.com", "fail.com"] = Except.ok wCombined
    ∧ (wCombined.ads_count
        = ((["a.com", "fail.com"].filterMap wFetch).map (fun resp => resp.ads.length)).sum
      ∧ wCombined.ads_count = wCombined.ads.length) :=
  ⟨rfl, searchAds_ads_count wFetch ["a.com", "fail.com"] wCombined rfl⟩

/-! ### Partial failure and ordering of the fan-out -/

/-- C1: when at least one domain's provider call succeeds (and some fail),
`searchAds` returns, without throwing, the combined result built from exactly
the successful domains' results — a failed domain contributes nothing. -/
theorem searchAds_failures_absorbed (fetchDomain : String → Option AdsSearchResponse)
    (domains : List String)
    (hsucc : ∃ d ∈ domains, (fetchDomain d).isSome = true)
    (hfail : ∃ d ∈ domains, fetchDomain d = none) :
    searchAds fetchDomain domains =
      Except.ok (mkCombined
        ((domains.filter (fun d => (fetchDomain d).isSome)).filterMap fetchDomain)) := by
  obtain ⟨d0, hd0, hd0s⟩ := hsucc
  have hlen : ¬ domains.length = 0 := by
    intro h
    rw [List.length_eq_zero] at h
    subst h
    exact absurd hd0 (List.not_mem_nil d0)
  have hnn : ¬ (domains.filterMap fetchDomain).length = 0 := by
    rw [List.length_eq_zero, List.filterMap_eq_nil_iff]
    intro h
    rw [h d0 hd0] at hd0s
    exact absurd hd0s (by simp)
  unfold searchAds
  rw [if_neg hlen]
  simp only [filterMap_id_map]
  rw [if_neg hnn, filterMap_filter_isSome]

/-- Witness for C1: `a.com` succeeds, `fail.com` fails, and the result is
built from the successful domain only. -/
theorem searchAds_failures_absorbed_witness :
    ((∃ d ∈ ["a.com", "fail.com"], (wFetch d).isSome = true)
      ∧ (∃ d ∈ ["a.com", "fail.com"], wFetch d = none))
    ∧ searchAds wFetch ["a.com", "fail.com"] =
        Except.ok (mkCombined
          ((["a.com", "fail.com"].filter (fun d => (wFetch d).isSome)).filterMap wFetch)) :=
  ⟨⟨by decide, by decide⟩,
    searchAds_failures_absorbed wFetch ["a.com", "fail.com"] (by decide) (by decide)⟩

lemma map_domain_filterMap (fetchDomain : String → Option AdsSearchResponse)
    (l : List String)
    (hecho : ∀ d resp, fetchDomain d = some resp → resp.domain = d) :
    (l.filterMap fetchDomain).map (fun resp => resp.domain)
      = l.filter (fun d => (fetchDomain d).isSome) := by
  induction l with
  | nil => rfl
  | cons a l ih =>
      cases h : fetchDomain a with
      | none => simp [List.filterMap_cons, List.filter_cons, h, ih]
      | some resp =>
          simp [List.filterMap_cons, List.filter_cons, h, ih, hecho a resp h]

/-- C5: provided the provider echoes the requested domain back in its
response, a successful `searchAds` lists the succeeded domains in submission
order (the input order restricted to successes) and concatenates the
per-domain ad lists in that same order.  The embedding realises
`Promise.all`'s guarantee that results line up with submission order, so the
conclusion does not depend on completion order. -/
theorem searchAds_submission_order (fetchDomain : String → Option AdsSearchResponse)
    (domains : List String) (r : CombinedAdsSearchResponse)
    (hecho : ∀ d resp, fetchDomain d = some resp → resp.domain = d)
    (hok : searchAds fetchDomain domains = Except.ok r) :
    r.domains = domains.filter (fun d => (fetchDomain d).isSome)
    ∧ r.ads = ((domains.filterMap fetchDomain).map (fun resp => resp.ads)).flatten := by
  unfold searchAds at hok
  by_cases h0 : domains.length = 0
  · rw [if_pos h0] at hok
    have hd : domains = [] := List.length_eq_zero.mp h0
    cases hok
    subst hd
    exact ⟨rfl, rfl⟩
  · rw [if_neg h0] at hok
    simp only [filterMap_id_map] at hok
    by_cases h1 : (domains.filterMap fetchDomain).length = 0
    · rw [if_pos h1] at hok
      cases hok
    · rw [if_neg h1] at hok
      cases hok
      refine ⟨?_, rfl⟩
      show (domains.filterMap fetchDomain).map (fun resp => resp.domain) = _
      exact map_domain_filterMap fetchDomain domains hecho

lemma echoFetch_echo : ∀ d resp, echoFetch d = some resp → resp.domain = d := by
  intro d resp h
  unfold echoFetch at h
  by_cases hd : d = "fail.com"
  · rw [if_pos hd] at h
    cases h
  · rw [if_neg hd] at h
    cases h
    rfl

/-- Witness for C5: domains `["b.com", "fail.com", "a.com"]` yield combined
domains `["b.com", "a.com"]` in submission order. -/
theorem searchAds_submission_order_witness :
    (∀ d resp, echoFetch d = some resp → resp.domain = d)
    ∧ searchAds echoFetch ["b.com", "fail.com", "a.com"] = Except.ok echoCombined
    ∧ (echoCombined.domains
        = ["b.com", "fail.com", "a.com"].filter (fun d => (echoFetch d).isSome)
      ∧ echoCombined.ads
        = ((["b.com", "fail.com", "a.com"].filterMap echoFetch).map
            (fun resp => resp.ads)).flatten) :=
  ⟨echoFetch_echo, rfl,
    searchAds_submission_order echoFetch ["b.com", "fail.com", "a.com"] echoCombined
      echoFetch_echo rfl⟩

/-! ### Cluster merge: dense ids, descending stable order -/

lemma length_reassignIds (l : List Cluster) :
    ∀ n, (reassignIds n l).length = l.length := by
  induction l with
  | nil => intro n; rfl
  | cons c cs ih =>
      intro n
      show (reassignIds (n + 1) cs).length + 1 = cs.length + 1
      rw [ih (n + 1)]

/-- C3: for a non-empty list of successful results, the merged cluster ids
are exactly `0, 1, …, N-1` where `N` is the total number of clusters
contributed by all domains, each id appearing exactly once. -/
theorem combineClusteringData_ids_dense (results : List AdsSearchResponse)
    (hne : results ≠ []) :
    (combineClusteringData results).clusters.map (fun c => c.id)
      = List.range (clusterCount results)
    ∧ ((combineClusteringData results).clusters.map (fun c => c.id)).Nodup := by
  have key : (combineClusteringData results).clusters.map (fun c => c.id)
      = List.range (clusterCount results) := by
    show (reassignIds 0 (sortBySizeDesc (mergedBeforeSort results).1.clusters)).map
        (fun c => c.id) = _
    rw [map_id_reassignIds, length_sortBySizeDesc]
    unfold mergedBeforeSort
    rw [foldl_mergeStep_clusters_length]
    simp [emptyClusteringData, List.range_eq_range']
  exact ⟨key, key ▸ List.nodup_range _⟩

/-- Witness for C3: per-domain cluster counts `[2, 3]` give merged ids
`[0, 1, 2, 3, 4]`. -/
theorem combineClusteringData_ids_dense_witness :
    ([wRespTwo, wRespThree] ≠ ([] : List AdsSearchResponse))
    ∧ ((combineClusteringData [wRespTwo, wRespThree]).clusters.map (fun c => c.id)
        = List.range (clusterCount [wRespTwo, wRespThree])
      ∧ ((combineClusteringData [wRespTwo, wRespThree]).clusters.map
          (fun c => c.id)).Nodup) :=
  ⟨by decide, combineClusteringData_ids_dense [wRespTwo, wRespThree] (by decide)⟩

lemma mem_insertBySize {a x : Cluster} {l : List Cluster} :
    a ∈ insertBySize x l ↔ a = x ∨ a ∈ l := by
  induction l with
  | nil => simp [insertBySize]
  | cons y ys ih =>
      unfold insertBySize
      by_cases h : y.size ≤ x.size
      · rw [if_pos h]
        simp

      · rw [if_neg h]
        simp [ih]
        tauto

lemma pairwise_insertBySize {x : Cluster} {l : List Cluster}
    (hl : l.Pairwise (fun a b => b.size ≤ a.size)) :
    (insertBySize x l).Pairwise (fun a b => b.size ≤ a.size) := by
  induction l with
  | nil => simp [insertBySize]
  | cons y ys ih =>
      rw [List.pairwise_cons] at hl
      obtain ⟨hy, hys⟩ := hl
      unfold insertBySize
      by_cases h : y.size ≤ x.size
      · rw [if_pos h]
        refine List.pairwise_cons.mpr ⟨?_, List.pairwise_cons.mpr ⟨hy, hys⟩⟩
        intro b hb
        rcases List.mem_cons.mp hb with rfl | hb
        · exact h
        · exact le_trans (hy b hb) h
      · rw [if_neg h]
        refine List.pairwise_cons.mpr ⟨?_, ih hys⟩
        intro b hb
        rcases mem_insertBySize.mp hb with rfl | hb
        · exact Nat.le_of_lt (Nat.lt_of_not_le h)
        · exact hy b hb

lemma pairwise_sortBySizeDesc (l : List Cluster) :
    (sortBySizeDesc l).Pairwise (fun a b => b.size ≤ a.size) := by
  induction l with
  | nil => simp [sortBySizeDesc]
  | cons x xs ih => exact pairwise_insertBySize ih

lemma filter_insertBySize (x : Cluster) (l : List Cluster) (s : Nat) :
    (insertBySize x l).filter (fun c => c.size == s)
      = if x.size = s then x :: l.filter (fun c => c.size == s)
        else l.filter (fun c => c.size == s) := by
  induction l with
  | nil =>
      by_cases hx : x.size = s <;> simp [insertBySize, hx]
  | cons y ys ih =>
      unfold insertBySize
      by_cases h : y.size ≤ x.size
      · rw [if_pos h]
        by_cases hx : x.size = s <;> simp [List.filter_cons, hx]
      · rw [if_neg h]
        by_cases hx : x.size = s
        · have hy : ¬ (y.size = s) := by omega
          simp [List.filter_cons, hx, hy, ih]
        · simp [List.filter_cons, hx, ih]

lemma filter_sortBySizeDesc (l : List Cluster) (s : Nat) :
    (sortBySizeDesc l).filter (fun c => c.size == s)
      = l.filter (fun c => c.size == s) := by
  induction l with
  | nil => rfl
  | cons x xs ih =>
      show (insertBySize x (sortBySizeDesc xs)).filter _ = _
      rw [filter_insertBySize]
      by_cases hx : x.size = s
      · simp [List.filter_cons, hx, ih]
      · simp [List.filter_cons, hx, ih]

lemma filter_reassignIds_eraseId (l : List Cluster) (s : Nat) :
    ∀ n, ((reassignIds n l).filter (fun c => c.size == s)).map eraseId
      = (l.filter (fun c => c.size == s)).map eraseId := by
  induction l with
  | nil => intro n; rfl
  | cons c cs ih =>
      intro n
      show (({ c with id := n } :: reassignIds (n + 1) cs).filter _).map eraseId = _
      by_cases hc : c.size = s
      · simp [List.filter_cons, hc, ih (n + 1), eraseId]
      · simp [List.filter_cons, hc, ih (n + 1)]

lemma map_size_reassignIds (l : List Cluster) :
    ∀ n, (reassignIds n l).map (fun c => c.size) = l.map (fun c => c.size) := by
  induction l with
  | nil => intro n; rfl
  | cons c cs ih =>
      intro n
      show c.size :: (reassignIds (n + 1) cs).map (fun c => c.size) = _
      rw [ih (n + 1)]
      rfl

/-- C4: the merged cluster list is sorted by size descending; ties keep the
order in which clusters were appended (stability: for every size, the
clusters of that size — ids forgotten, since ids are overwritten — appear
exactly as in the pre-sort appended list); and the final ids `0, 1, 2, …`
follow that sorted order. -/
theorem combineClusteringData_sorted_stable (results : List AdsSearchResponse) :
    ((combineClusteringData results).clusters.map (fun c => c.size)).Pairwise
        (fun a b => b ≤ a)
    ∧ (∀ s : Nat,
        (((combineClusteringData results).clusters.filter
            (fun c => c.size == s)).map eraseId)
          = (((mergedBeforeSort results).1.clusters.filter
              (fun c => c.size == s)).map eraseId))
    ∧ (combineClusteringData results).clusters.map (fun c => c.id)
        = List.range (combineClusteringData results).clusters.length := by
  refine ⟨?_, ?_, ?_⟩
  · show ((reassignIds 0 (sortBySizeDesc (mergedBeforeSort results).1.clusters)).map
        (fun c => c.size)).Pairwise _
    rw [map_size_reassignIds]
    exact List.pairwise_map.mpr (pairwise_sortBySizeDesc _)
  · intro s
    show ((reassignIds 0 (sortBySizeDesc (mergedBeforeSort results).1.clusters)).filter
        _).map eraseId = _
    rw [filter_reassignIds_eraseId, filter_sortBySizeDesc]
  · show (reassignIds 0 (sortBySizeDesc (mergedBeforeSort results).1.clusters)).map
        (fun c => c.id)
      = List.range (reassignIds 0
          (sortBySizeDesc (mergedBeforeSort results).1.clusters)).length
    rw [map_id_reassignIds, length_reassignIds, List.range_eq_range']

/-! ### Absent versus empty clustering (C7) -/

/-- C7 counterexample: searching one domain whose (successful) result has no
clustering data yields a combined result whose `clustering` field is an
empty `ClusteringData` object, not `none` — the claimed absence does not
hold on the code. -/
theorem searchAds_clustering_not_absent_cex :
    (searchAds fetchNoClustering ["a.com"]).toOption.bind (fun r => r.clustering)
      = some { clusters := [], unclustered := [], total_phrases := 0, error := none } :=
  rfl

lemma foldl_mergeStep_all_none (results : List AdsSearchResponse) :
    ∀ acc : ClusteringData × Nat,
      (∀ res ∈ results, res.clustering = none) →
        results.foldl mergeStep acc = acc := by
  induction results with
  | nil => intro acc _; rfl
  | cons r rs ih =>
      intro acc hnone
      rw [List.foldl_cons]
      have hr : r.clustering = none := hnone r (List.mem_cons_self r rs)
      have hstep : mergeStep acc r = acc := by
        unfold mergeStep
        rw [hr]
      rw [hstep]
      exact ih acc (fun res hres => hnone res (List.mem_cons_of_mem r hres))

/-- C7 amended: when no succeeded result carries clustering data, the merged
clustering is the empty `ClusteringData` (zero clusters, zero phrases, no
error), and the combined response's `clustering` field is that present-but-
empty object (it is `none` only on the empty-domain-list early return). -/
theorem combineClusteringData_empty_when_no_data (results : List AdsSearchResponse)
    (hne : results ≠ [])
    (hnone : ∀ res ∈ results, res.clustering = none) :
    combineClusteringData results = emptyClusteringData
    ∧ (mkCombined results).clustering = some emptyClusteringData := by
  have h := foldl_mergeStep_all_none results (emptyClusteringData, 0) hnone
  have h1 : combineClusteringData results = emptyClusteringData := by
    show { (mergedBeforeSort results).1 with
            clusters := reassignIds 0
              (sortBySizeDesc (mergedBeforeSort results).1.clusters) }
        = emptyClusteringData
    unfold mergedBeforeSort
    rw [h]
    rfl
  refine ⟨h1, ?_⟩
  show some (combineClusteringData results) = some emptyClusteringData
  rw [h1]

/-- Witness for the amended C7: one succeeded domain without clustering data
produces the present-but-empty merged clustering. -/
theorem combineClusteringData_empty_when_no_data_witness :
    ([respNoClustering] ≠ ([] : List AdsSearchResponse)
      ∧ ∀ res ∈ [respNoClustering], res.clustering = none)
    ∧ (combineClusteringData [respNoClustering] = emptyClusteringData
      ∧ (mkCombined [respNoClustering]).clustering = some emptyClusteringData) :=
  ⟨⟨by decide, by decide⟩,
    combineClusteringData_empty_when_no_data [respNoClustering] (by decide) (by decide)⟩

/-! ### Idempotence of domain normalization (C8) -/

lemma charToLower_idem (c : Char) : c.toLower.toLower = c.toLower := by
  by_cases h : c.toNat ≥ 65 ∧ c.toNat ≤ 90
  · have h1 : c.toLower = Char.ofNat (c.toNat + 32) := by
      show (if c.toNat ≥ 65 ∧ c.toNat ≤ 90 then Char.ofNat (c.toNat + 32) else c) = _
      rw [if_pos h]
    obtain ⟨ha, hb⟩ := h
    rw [h1]
    generalize c.toNat = m at ha hb h1 ⊢
    interval_cases m <;> decide
  · have h1 : c.toLower = c := by
      show (if c.toNat ≥ 65 ∧ c.toNat ≤ 90 then Char.ofNat (c.toNat + 32) else c) = c
      rw [if_neg h]
    rw [h1, h1]

lemma lowerChars_idem (s : List Char) : lowerChars (lowerChars s) = lowerChars s := by
  unfold lowerChars
  rw [List.map_map]
  exact List.map_congr_left (fun a _ => charToLower_idem a)

lemma lower_fixed_drop {s : List Char} (h : lowerChars s = s) (n : Nat) :
    lowerChars (s.drop n) = s.drop n := by
  unfold lowerChars at *
  rw [List.map_drop, h]

lemma lower_fixed_dropLast {s : List Char} (h : lowerChars s = s) :
    lowerChars s.dropLast = s.dropLast := by
  unfold lowerChars at *
  rw [List.map_dropLast, h]

lemma lower_fixed_stripScheme {s : List Char} (h : lowerChars s = s) :
    lowerChars (stripScheme s) = stripScheme s := by
  unfold stripScheme
  split
  · exact lower_fixed_drop h 7
  · split
    · exact lower_fixed_drop h 8
    · exact h

lemma lower_fixed_stripSlash {s : List Char} (h : lowerChars s = s) :
    lowerChars (stripTrailingSlash s) = stripTrailingSlash s := by
  unfold stripTrailingSlash
  split
  · exact lower_fixed_dropLast h
  · exact h

lemma lower_fixed_stripWww {s : List Char} (h : lowerChars s = s) :
    lowerChars (stripWww s) = stripWww s := by
  unfold stripWww
  split
  · exact lower_fixed_drop h 4
  · exact h

lemma lowerChars_normalizeDomain (s : List Char) :
    lowerChars (normalizeDomain s) = normalizeDomain s := by
  unfold normalizeDomain
  apply lower_fixed_stripWww
  apply lower_fixed_stripSlash
  apply lower_fixed_stripScheme
  exact lowerChars_idem (trimChars s)

/-- C8 counterexample: `normalizeDomain` is not idempotent.  The regex
`/^www\./` strips only one `www.`, so `"www.www.example.com"` normalizes to
`"www.example.com"`, which a second normalization shortens further to
`"example.com"`. -/
theorem normalizeDomain_not_idempotent_cex :
    normalizeDomain (normalizeDomain (String.toList "www.www.example.com"))
      ≠ normalizeDomain (String.toList "www.www.example.com") := by
  decide

/-- C8 amended: `normalize(normalize(x)) = normalize(x)` holds for every
string `x` whose normal form is itself fully normalized — already trimmed,
bearing no leading `http://`, `https://` or `www.`, and no trailing slash.
(Each hypothesis is needed: inputs such as `"www.www.example.com"`,
`"https://https://a"`, `"a//"` or `"https:// a"` violate one of them and
break idempotence; lower-caseness needs no hypothesis since normal forms are
always lowercase.) -/
theorem normalizeDomain_idem_of_normalized (s : List Char)
    (htrim : trimChars (normalizeDomain s) = normalizeDomain s)
    (hh1 : ¬ ((String.toList "http://").isPrefixOf (normalizeDomain s) = true))
    (hh2 : ¬ ((String.toList "https://").isPrefixOf (normalizeDomain s) = true))
    (hsl : ¬ ((normalizeDomain s).getLast? = some '/'))
    (hw : ¬ ((String.toList "www.").isPrefixOf (normalizeDomain s) = true)) :
    normalizeDomain (normalizeDomain s) = normalizeDomain s := by
  have hlow : lowerChars (normalizeDomain s) = normalizeDomain s :=
    lowerChars_normalizeDomain s
  show stripWww (stripTrailingSlash (stripScheme (lowerChars
      (trimChars (normalizeDomain s))))) = normalizeDomain s
  rw [htrim, hlow]
  unfold stripScheme
  rw [if_neg hh1, if_neg hh2]
  unfold stripTrailingSlash
  rw [if_neg hsl]
  unfold stripWww
  rw [if_neg hw]

/-- Witness for the amended C8: `"HTTPS://www.Example.com/"` normalizes to
`"example.com"`, which is a fixed point of normalization. -/
theorem normalizeDomain_idem_witness :
    (trimChars (normalizeDomain (String.toList "HTTPS://www.Example.com/"))
        = normalizeDomain (String.toList "HTTPS://www.Example.com/")
      ∧ ¬ ((String.toList "http://").isPrefixOf
            (normalizeDomain (String.toList "HTTPS://www.Example.com/")) = true)
      ∧ ¬ ((String.toList "https://").isPrefixOf
            (normalizeDomain (String.toList "HTTPS://www.Example.com/")) = true)
      ∧ ¬ ((normalizeDomain (String.toList "HTTPS://www.Example.com/")).getLast?
            = some '/')
      ∧ ¬ ((String.toList "www.").isPrefixOf
            (normalizeDomain (String.toList "HTTPS://www.Example.com/")) = true))
    ∧ normalizeDomain (normalizeDomain (String.toList "HTTPS://www.Example.com/"))
        = normalizeDomain (String.toList "HTTPS://www.Example.com/") :=
  ⟨⟨by decide, by decide, by decide, by decide, by decide⟩,
    normalizeDomain_idem_of_normalized (String.toList "HTTPS://www.Example.com/")
      (by decide) (by decide) (by decide) (by decide) (by decide)⟩

end KeywordApp
